import Mathlib

/-!
Verification of the Photobooth event-photo web application
(`photobooth_project/events`): a shallow embedding of the data model
(`models.py`), the upload validator and S3 adapter (`utils.py`), and the
request handlers (`views.py`), followed by theorems settling the stated
properties of the specification.

External effects are made explicit: the S3 client is a configuration record
with failure flags, fresh UUIDs and the current time are parameters, and the
HTTP fetch used by the zip download is an oracle function.
-/

namespace Photobooth

/-- Byte strings: lists of byte values (each intended `< 256`). -/
abbrev Bytes := List Nat

/-- `events.models.Event`: timestamps are seconds; `expires_at` is `none`
before the first save fills it in (Python `None`). -/
structure Event where
  id : Nat
  guest_code : String
  owner_secret : String
  name : String
  owner_email : Option String
  created_at : Nat
  expires_at : Option Nat
  is_active : Bool
  uploads_enabled : Bool
deriving Repr, DecidableEq

/-- `events.models.Photo`: `content_type` is optional because Django leaves
it `None` when the client sends no content type. -/
structure Photo where
  id : Nat
  eventId : Nat
  s3_key : String
  s3_url : String
  original_filename : String
  file_size : Nat
  content_type : Option String
  uploaded_at : Nat
deriving Repr, DecidableEq

/-- The persistent state: the Event and Photo tables. -/
structure Store where
  events : List Event
  photos : List Photo
deriving Repr, DecidableEq

/-- An uploaded file as the validator sees it: declared name, size and
content type, the byte stream and the current stream position. -/
structure UploadedFile where
  name : String
  size : Nat
  content_type : Option String
  bytes : Bytes
  pos : Nat
deriving Repr, DecidableEq

/-- `file.read(n)`: returns up to `n` bytes from the current position and
advances the position by the number of bytes actually read. -/
def fileRead (f : UploadedFile) (n : Nat) : Bytes × UploadedFile :=
  let chunk := (f.bytes.drop f.pos).take n
  (chunk, { f with pos := f.pos + chunk.length })

/-- `file.seek(n)`: sets the stream position. -/
def fileSeek (f : UploadedFile) (n : Nat) : UploadedFile :=
  { f with pos := n }

/-- The settings read by `validate_image_file` via `getattr` fallbacks. -/
structure Settings where
  max_upload_size : Nat
  allowed_image_types : List String
deriving Repr, DecidableEq

/-- The `getattr` fallbacks in `utils.validate_image_file`:
10 MB and `["image/jpeg", "image/png", "image/jpg"]`. -/
def defaultSettings : Settings :=
  { max_upload_size := 10 * 1024 * 1024
    allowed_image_types := ["image/jpeg", "image/png", "image/jpg"] }

/-- JPEG signature `FF D8 FF`. -/
def jpegSig : Bytes := [0xff, 0xd8, 0xff]

/-- The 8-byte PNG signature `89 50 4E 47 0D 0A 1A 0A` (`\x89PNG\r\n\x1a\n`). -/
def pngSig : Bytes := [0x89, 0x50, 0x4e, 0x47, 0x0d, 0x0a, 0x1a, 0x0a]

/-- Python `content_type in allowed_types`; a `None` content type is in no
list of strings. -/
def ctAllowed (st : Settings) (ct : Option String) : Bool :=
  match ct with
  | some s => st.allowed_image_types.contains s
  | none => false

/-- The oversize rejection message (Python formats the float
`max_size / (1024 * 1024)`; the default setting renders as `10.0`). -/
def sizeErrorMsg (maxSize : Nat) : String :=
  "File size exceeds " ++ toString (maxSize / (1024 * 1024)) ++ ".0 MB"

/-- `utils.validate_image_file`: reject oversize files; accept an allow-listed
declared content type outright; otherwise read the first 12 bytes, rewind
the stream to the start, and accept exactly the JPEG / PNG signatures.
Returns the `(is_valid, error)` pair together with the file's stream state. -/
def validate_image_file (st : Settings) (file : UploadedFile) :
    (Bool × Option String) × UploadedFile :=
  if file.size > st.max_upload_size then
    ((false, some (sizeErrorMsg st.max_upload_size)), file)
  else if ctAllowed st file.content_type then
    ((true, none), file)
  else
    let r := fileRead file 12
    let header := r.1
    let f2 := fileSeek r.2 0
    if header.take 3 = jpegSig then
      ((true, none), f2)
    else if header.take 8 = pngSig then
      ((true, none), f2)
    else
      ((false, some "Invalid file type"), f2)

/-- The S3 client's environment: bucket/region settings and whether the
external calls raise `ClientError`. -/
structure S3Config where
  bucket : String
  region : String
  put_fails : Bool
  put_error : String
  delete_fails : Bool
  delete_error : String
deriving Repr, DecidableEq

/-- The dict returned by `utils.upload_photo_to_s3`. -/
structure S3Data where
  s3_key : String
  s3_url : String
deriving Repr, DecidableEq

/-- Python `file.name.split(".")[-1]`. -/
def fileExt (name : String) : String :=
  (name.splitOn ".").getLastD ""

/-- `utils.upload_photo_to_s3`: builds the key
`events/<event_id>/<uuid>.<ext>`, uploads (which may raise `ClientError`,
re-raised as `Exception("S3 upload failed: ...")`), and returns the key and
the public URL. -/
def upload_photo_to_s3 (cfg : S3Config) (uuidHex : String)
    (file : UploadedFile) (event_id : Nat) : Except String S3Data :=
  let s3_key := "events/" ++ toString event_id ++ "/" ++ uuidHex ++ "." ++ fileExt file.name
  if cfg.put_fails then
    .error ("S3 upload failed: " ++ cfg.put_error)
  else
    .ok { s3_key := s3_key
          s3_url := "https://" ++ cfg.bucket ++ ".s3." ++ cfg.region
                    ++ ".amazonaws.com/" ++ s3_key }

/-- `utils.delete_photo_from_s3`: a `ClientError` from `delete_object` is
caught and printed, never propagated; the returned list is the printed log. -/
def delete_photo_from_s3 (cfg : S3Config) (s3_key : String) : List String :=
  if cfg.delete_fails then
    ["S3 delete error: " ++ cfg.delete_error ++ " (key " ++ s3_key ++ ")"]
  else
    []

/-- Modelled from the spec: the templates `events/guest_gallery.html` and
`events/owner_dashboard.html` are not in the source tree; per §4.4 of the
spec the guest gallery renders the event's photo listing and the owner
dashboard renders the listing plus the photo count. -/
inductive PageRender
  | gallery (eventName : String) (photos : List Photo)
  | dashboard (eventName : String) (photos : List Photo) (count : Nat)
deriving Repr, DecidableEq

/-- The observable body of an HTTP response. -/
inductive RespBody
  | err (msg : String)
  | page (p : PageRender)
  | uploadOk (photo_id : Nat) (photo_url : String)
  | deleteOk
  | bulkOk (deleted : Nat)
  | toggleOk (uploads_enabled : Bool)
  | zipFile (filename : String) (entries : List (String × Bytes))
deriving Repr, DecidableEq

/-- An HTTP response: status code and body. -/
structure Response where
  status : Nat
  body : RespBody
deriving Repr, DecidableEq

/-- The response Django's `get_object_or_404` produces on a failed lookup. -/
def notFoundResponse : Response :=
  { status := 404, body := .err "Not found" }

/-- `get_object_or_404(Event, guest_code=guest_code)`. -/
def lookupEventByGuestCode (s : Store) (g : String) : Option Event :=
  s.events.find? (fun e => e.guest_code == g)

/-- `get_object_or_404(Event, owner_secret=owner_secret)`. -/
def lookupEventByOwnerSecret (s : Store) (sec : String) : Option Event :=
  s.events.find? (fun e => e.owner_secret == sec)

/-- Insert a photo into a list already sorted newest-first. -/
def insertByNewest (p : Photo) : List Photo → List Photo
  | [] => [p]
  | q :: qs =>
    if q.uploaded_at ≤ p.uploaded_at then p :: q :: qs
    else q :: insertByNewest p qs

/-- Sort photos newest-first (`Photo.Meta.ordering = ['-uploaded_at']`). -/
def sortNewestFirst : List Photo → List Photo
  | [] => []
  | p :: ps => insertByNewest p (sortNewestFirst ps)

/-- `event.photos.all()`: the event's photos, newest upload first. -/
def eventPhotos (s : Store) (e : Event) : List Photo :=
  sortNewestFirst (s.photos.filter (fun p => p.eventId == e.id))

/-- `views.guest_gallery`: look up the event by guest code and render the
gallery page. -/
def guest_gallery (s : Store) (guest_code : String) : Response × Store :=
  match lookupEventByGuestCode s guest_code with
  | none => (notFoundResponse, s)
  | some event =>
    ({ status := 200, body := .page (.gallery event.name (eventPhotos s event)) }, s)

/-- `views.owner_dashboard`: look up the event by owner secret and render
the dashboard with the photo listing and its count. -/
def owner_dashboard (s : Store) (owner_secret : String) : Response × Store :=
  match lookupEventByOwnerSecret s owner_secret with
  | none => (notFoundResponse, s)
  | some event =>
    ({ status := 200
       body := .page (.dashboard event.name (eventPhotos s event)
                        (eventPhotos s event).length) }, s)

/-- The per-request environment of the upload handler: validator settings,
S3 client environment, the fresh UUID for the key, the fresh Photo id, and
the current time. -/
structure UploadCtx where
  settings : Settings
  cfg : S3Config
  uuidHex : String
  newPhotoId : Nat
  now : Nat
deriving Repr, DecidableEq

/-- `views.upload_photo`: 404 unknown code, 403 uploads disabled, 400 no
file, 400 validator rejection, 500 S3 failure or missing URL; otherwise
create the Photo row and return its id and URL. -/
def upload_photo (ctx : UploadCtx) (s : Store) (guest_code : String)
    (file? : Option UploadedFile) : Response × Store :=
  match lookupEventByGuestCode s guest_code with
  | none => (notFoundResponse, s)
  | some event =>
    if !event.uploads_enabled then
      ({ status := 403, body := .err "Uploads disabled" }, s)
    else
      match file? with
      | none => ({ status := 400, body := .err "No photo provided" }, s)
      | some photo_file =>
        let v := validate_image_file ctx.settings photo_file
        if !v.1.1 then
          ({ status := 400, body := .err (v.1.2.getD "") }, s)
        else
          match upload_photo_to_s3 ctx.cfg ctx.uuidHex v.2 event.id with
          | .error e => ({ status := 500, body := .err e }, s)
          | .ok s3_data =>
            if s3_data.s3_url = "" then
              ({ status := 500, body := .err "S3 upload returned no URL" }, s)
            else
              let photo : Photo :=
                { id := ctx.newPhotoId
                  eventId := event.id
                  s3_key := s3_data.s3_key
                  s3_url := s3_data.s3_url
                  original_filename := photo_file.name
                  file_size := photo_file.size
                  content_type := photo_file.content_type
                  uploaded_at := ctx.now }
              ({ status := 200, body := .uploadOk photo.id photo.s3_url },
               { s with photos := photo :: s.photos })

/-- `get_object_or_404(Photo, id=photo_id, event=event)`'s filter. -/
def photoMatches (e : Event) (pid : Nat) (p : Photo) : Bool :=
  p.id == pid && p.eventId == e.id

/-- `views.delete_photo`: look up the event by owner secret and the photo
scoped to that event; best-effort S3 delete (its log is discarded), then
delete the row by primary key. The handler's `except` branch is
unreachable: `delete_photo_from_s3` swallows `ClientError` itself. -/
def delete_photo (cfg : S3Config) (s : Store) (owner_secret : String)
    (photo_id : Nat) : Response × Store :=
  match lookupEventByOwnerSecret s owner_secret with
  | none => (notFoundResponse, s)
  | some event =>
    match s.photos.find? (photoMatches event photo_id) with
    | none => (notFoundResponse, s)
    | some photo =>
      let _log := delete_photo_from_s3 cfg photo.s3_key
      ({ status := 200, body := .deleteOk },
       { s with photos := s.photos.filter (fun p => !(p.id == photo.id)) })

/-- The parsed body of a bulk-delete / download request: `malformed` is a
body `json.loads` rejects (or one without `.get`); `ids l` is a JSON object
whose `photo_ids` is `l`, with `l = []` when the field is absent
(`body.get('photo_ids', [])`). -/
inductive BulkBody
  | malformed
  | ids (photo_ids : List Nat)
deriving Repr, DecidableEq

/-- `views.bulk_delete_photos`: 404 unknown secret, 400 malformed body, 400
empty id list; otherwise delete each of the event's photos whose id is
listed (ids outside the event silently skipped), count them, 200. -/
def bulk_delete_photos (cfg : S3Config) (s : Store) (owner_secret : String)
    (body : BulkBody) : Response × Store :=
  match lookupEventByOwnerSecret s owner_secret with
  | none => (notFoundResponse, s)
  | some event =>
    match body with
    | .malformed => ({ status := 400, body := .err "Invalid request body" }, s)
    | .ids photo_ids =>
      if photo_ids.isEmpty then
        ({ status := 400, body := .err "No photo IDs provided" }, s)
      else
        let victims := s.photos.filter
          (fun p => photo_ids.contains p.id && p.eventId == event.id)
        let _logs := victims.map (fun p => delete_photo_from_s3 cfg p.s3_key)
        let remaining := s.photos.filter
          (fun p => !(victims.map (fun v => v.id)).contains p.id)
        ({ status := 200, body := .bulkOk victims.length },
         { s with photos := remaining })

/-- `Event.save`: fill in `expires_at` (now + 30 days), `guest_code` and
`owner_secret` when they are unset; `freshGuest`/`freshOwner` stand for the
fresh UUID strings. -/
def eventSave (now : Nat) (freshGuest freshOwner : String) (e : Event) : Event :=
  let e1 := if e.expires_at = none then { e with expires_at := some (now + 30 * 86400) } else e
  let e2 := if e1.guest_code = "" then { e1 with guest_code := freshGuest } else e1
  if e2.owner_secret = "" then { e2 with owner_secret := freshOwner } else e2

/-- `event.save()` at the store level: replace the row with this primary key. -/
def updateEvent (s : Store) (e : Event) : Store :=
  { s with events := s.events.map (fun ev => if ev.id == e.id then e else ev) }

/-- `views.toggle_uploads`: look up the event by owner secret, flip
`uploads_enabled`, save, and return the new value. -/
def toggle_uploads (now : Nat) (freshGuest freshOwner : String) (s : Store)
    (owner_secret : String) : Response × Store :=
  match lookupEventByOwnerSecret s owner_secret with
  | none => (notFoundResponse, s)
  | some event =>
    let event := eventSave now freshGuest freshOwner
      { event with uploads_enabled := !event.uploads_enabled }
    ({ status := 200, body := .toggleOk event.uploads_enabled },
     updateEvent s event)

/-- Python `url.split("/")[-1]`. -/
def lastUrlSegment (url : String) : String :=
  (url.splitOn "/").getLastD ""

/-- The zip archive built by `download_photos_zip`: one entry per photo
whose fetch succeeds (`fetch` returns `none` on an exception or a non-200
status), named by the last URL segment. -/
def zipEntries (fetch : String → Option Bytes) (photos : List Photo) :
    List (String × Bytes) :=
  photos.filterMap (fun p =>
    (fetch p.s3_url).map (fun content => (lastUrlSegment p.s3_url, content)))

/-- `views.download_photos_zip`: a malformed body falls back to all photos;
a non-empty id list restricts to the event's photos with those ids;
per-photo fetch failures are skipped. -/
def download_photos_zip (fetch : String → Option Bytes) (s : Store)
    (owner_secret : String) (body : BulkBody) : Response × Store :=
  match lookupEventByOwnerSecret s owner_secret with
  | none => (notFoundResponse, s)
  | some event =>
    let photo_ids := match body with
      | .malformed => []
      | .ids l => l
    let photos :=
      if photo_ids.isEmpty then eventPhotos s event
      else sortNewestFirst (s.photos.filter
        (fun p => photo_ids.contains p.id && p.eventId == event.id))
    ({ status := 200
       body := .zipFile (event.name ++ "_photos.zip") (zipEntries fetch photos) }, s)

/-! ## Helper lemmas -/

/-- On the magic-byte fallback path (size within the limit, declared content
type outside the allow-list), `validate_image_file` evaluates to a signature
test on the bytes at the stream position, with the stream rewound to the
start in every branch. -/
lemma validate_fallback (st : Settings) (f : UploadedFile)
    (hsize : f.size ≤ st.max_upload_size)
    (hct : ctAllowed st f.content_type = false) :
    validate_image_file st f =
      (if (f.bytes.drop f.pos).take 3 = jpegSig then
        ((true, none), { f with pos := 0 })
       else if (f.bytes.drop f.pos).take 8 = pngSig then
        ((true, none), { f with pos := 0 })
       else
        ((false, some "Invalid file type"), { f with pos := 0 })) := by
  unfold validate_image_file fileRead fileSeek
  rw [if_neg (Nat.not_lt.mpr hsize), hct]
  simp only [Bool.false_eq_true, if_false, List.take_take]
  norm_num

/-- On the allow-list path `validate_image_file` accepts and leaves the file
stream untouched. -/
lemma validate_allowed (st : Settings) (f : UploadedFile)
    (hsize : f.size ≤ st.max_upload_size)
    (hct : ctAllowed st f.content_type = true) :
    validate_image_file st f = ((true, none), f) := by
  unfold validate_image_file
  rw [if_neg (Nat.not_lt.mpr hsize), hct]
  simp

/-! ## Claim theorems -/

/-- C9: an Event saved without an explicit `expires_at` gets the stored
expiry equal to the time of the save plus 30 days. -/
theorem save_defaults_expiry_thirty_days (now : Nat) (fg fo : String)
    (e : Event) (h : e.expires_at = none) :
    (eventSave now fg fo e).expires_at = some (now + 30 * 86400) := by
  unfold eventSave
  rw [if_pos h]
  dsimp only
  split_ifs <;> rfl

/-- Witness for C9 at a concrete event with unset expiry. -/
theorem save_defaults_expiry_thirty_days_witness :
    ({ id := 1, guest_code := "gc111", owner_secret := "os111", name := "Party",
       owner_email := none, created_at := 50, expires_at := none,
       is_active := true, uploads_enabled := true } : Event).expires_at = none ∧
    (eventSave 100 "fresh-g" "fresh-o"
      { id := 1, guest_code := "gc111", owner_secret := "os111", name := "Party",
        owner_email := none, created_at := 50, expires_at := none,
        is_active := true, uploads_enabled := true }).expires_at
      = some (100 + 30 * 86400) :=
  ⟨rfl, save_defaults_expiry_thirty_days 100 "fresh-g" "fresh-o" _ rfl⟩

/-- C8: whenever the validator takes the magic-byte fallback path, the
file's stream position is restored to the start afterwards, whether the
file is accepted or rejected. -/
theorem validator_restores_stream_position (st : Settings) (f : UploadedFile)
    (hsize : f.size ≤ st.max_upload_size)
    (hct : ctAllowed st f.content_type = false) :
    (validate_image_file st f).2 = { f with pos := 0 } := by
  rw [validate_fallback st f hsize hct]
  split_ifs <;> rfl

/-- A concrete file whose declared type is outside the allow-list and whose
stream is mid-read. -/
def exFileOdd : UploadedFile :=
  { name := "pic.bin", size := 4, content_type := some "application/octet-stream"
    bytes := [1, 2, 3, 4], pos := 3 }

/-- Witness for C8 at a concrete rejected file read from position 3. -/
theorem validator_restores_stream_position_witness :
    exFileOdd.size ≤ defaultSettings.max_upload_size ∧
    ctAllowed defaultSettings exFileOdd.content_type = false ∧
    (validate_image_file defaultSettings exFileOdd).2 = { exFileOdd with pos := 0 } :=
  ⟨by decide, by decide,
   validator_restores_stream_position defaultSettings exFileOdd (by decide) (by decide)⟩

/-- C2: within the size limit, a file with a declared content type outside
the allow-list is accepted iff its first bytes are the JPEG signature
`FF D8 FF` or the 8-byte PNG signature, and otherwise rejected with
"Invalid file type"; a file with an allow-listed declared type is accepted
with the stream untouched (no bytes read). -/
theorem validator_magic_byte_policy (st : Settings) (f : UploadedFile)
    (hsize : f.size ≤ st.max_upload_size) (hpos : f.pos = 0) :
    (ctAllowed st f.content_type = false →
      ((validate_image_file st f).1 = (true, none) ↔
        (f.bytes.take 3 = jpegSig ∨ f.bytes.take 8 = pngSig)) ∧
      (¬ (f.bytes.take 3 = jpegSig ∨ f.bytes.take 8 = pngSig) →
        (validate_image_file st f).1 = (false, some "Invalid file type"))) ∧
    (ctAllowed st f.content_type = true →
      validate_image_file st f = ((true, none), f)) := by
  constructor
  · intro hct
    rw [validate_fallback st f hsize hct, hpos]
    simp only [List.drop_zero]
    by_cases h3 : f.bytes.take 3 = jpegSig
    · simp [h3]
    · by_cases h8 : f.bytes.take 8 = pngSig
      · simp [h3, h8]
      · simp [h3, h8]
  · exact validate_allowed st f hsize

/-- A concrete camera-style upload: generic content type, JPEG magic bytes. -/
def exFileJpeg : UploadedFile :=
  { name := "cam.jpg", size := 5, content_type := some "application/octet-stream"
    bytes := [0xff, 0xd8, 0xff, 0x00, 0x11], pos := 0 }

/-- Witness for C2 at a concrete sniffed JPEG upload. -/
theorem validator_magic_byte_policy_witness :
    exFileJpeg.size ≤ defaultSettings.max_upload_size ∧ exFileJpeg.pos = 0 ∧
    (ctAllowed defaultSettings exFileJpeg.content_type = false →
      ((validate_image_file defaultSettings exFileJpeg).1 = (true, none) ↔
        (exFileJpeg.bytes.take 3 = jpegSig ∨ exFileJpeg.bytes.take 8 = pngSig)) ∧
      (¬ (exFileJpeg.bytes.take 3 = jpegSig ∨ exFileJpeg.bytes.take 8 = pngSig) →
        (validate_image_file defaultSettings exFileJpeg).1 =
          (false, some "Invalid file type"))) ∧
    (ctAllowed defaultSettings exFileJpeg.content_type = true →
      validate_image_file defaultSettings exFileJpeg = ((true, none), exFileJpeg)) :=
  ⟨by decide, rfl,
   (validator_magic_byte_policy defaultSettings exFileJpeg (by decide) rfl).1,
   (validator_magic_byte_policy defaultSettings exFileJpeg (by decide) rfl).2⟩

/-- C3: an upload addressed to the guest code of an event whose uploads are
disabled returns 403 with "Uploads disabled" and leaves the store (in
particular the set of Photo records) unchanged. -/
theorem upload_disabled_rejected (ctx : UploadCtx) (s : Store) (g : String)
    (e : Event) (file? : Option UploadedFile)
    (hl : lookupEventByGuestCode s g = some e)
    (hd : e.uploads_enabled = false) :
    (upload_photo ctx s g file?).1 = { status := 403, body := .err "Uploads disabled" } ∧
    (upload_photo ctx s g file?).2 = s := by
  unfold upload_photo
  rw [hl]
  simp [hd]

/-- A sample event with uploads enabled. -/
def exEvent : Event :=
  { id := 1, guest_code := "gc111", owner_secret := "os111", name := "Party"
    owner_email := none, created_at := 50, expires_at := some 999
    is_active := true, uploads_enabled := true }

/-- A sample event with uploads disabled. -/
def exEventOff : Event :=
  { id := 2, guest_code := "gc222", owner_secret := "os222", name := "Expo"
    owner_email := some "o@example.com", created_at := 60, expires_at := some 777
    is_active := false, uploads_enabled := false }

/-- A sample photo belonging to `exEvent`. -/
def exPhoto1 : Photo :=
  { id := 11, eventId := 1, s3_key := "events/1/aa.jpg"
    s3_url := "https://b.s3.r.amazonaws.com/events/1/aa.jpg"
    original_filename := "aa.jpg", file_size := 4
    content_type := some "image/jpeg", uploaded_at := 70 }

/-- A sample photo belonging to `exEventOff`. -/
def exPhoto2 : Photo :=
  { id := 12, eventId := 2, s3_key := "events/2/bb.png"
    s3_url := "https://b.s3.r.amazonaws.com/events/2/bb.png"
    original_filename := "bb.png", file_size := 6
    content_type := some "image/png", uploaded_at := 80 }

/-- A sample store with two events and one photo each. -/
def exStore : Store :=
  { events := [exEvent, exEventOff], photos := [exPhoto1, exPhoto2] }

/-- A sample upload context. -/
def exCtx : UploadCtx :=
  { settings := defaultSettings
    cfg := { bucket := "b", region := "r", put_fails := false, put_error := ""
             delete_fails := false, delete_error := "" }
    uuidHex := "u1", newPhotoId := 20, now := 90 }

/-- Witness for C3: uploading a valid JPEG to the disabled event. -/
theorem upload_disabled_rejected_witness :
    lookupEventByGuestCode exStore "gc222" = some exEventOff ∧
    exEventOff.uploads_enabled = false ∧
    (upload_photo exCtx exStore "gc222" (some exFileJpeg)).1 =
      { status := 403, body := .err "Uploads disabled" } ∧
    (upload_photo exCtx exStore "gc222" (some exFileJpeg)).2 = exStore :=
  ⟨by decide, by decide,
   (upload_disabled_rejected exCtx exStore "gc222" exEventOff (some exFileJpeg)
      (by decide) (by decide)).1,
   (upload_disabled_rejected exCtx exStore "gc222" exEventOff (some exFileJpeg)
      (by decide) (by decide)).2⟩

/-- C6: when the owner secret resolves, a bulk delete with a malformed body
returns 400 "Invalid request body", and one with an empty or absent
`photo_ids` list returns 400 "No photo IDs provided"; both leave the store
unchanged. -/
theorem bulk_delete_bad_body_rejected (cfg : S3Config) (s : Store)
    (sec : String) (e : Event)
    (hl : lookupEventByOwnerSecret s sec = some e) :
    bulk_delete_photos cfg s sec .malformed =
      ({ status := 400, body := .err "Invalid request body" }, s) ∧
    bulk_delete_photos cfg s sec (.ids []) =
      ({ status := 400, body := .err "No photo IDs provided" }, s) := by
  unfold bulk_delete_photos
  rw [hl]
  exact ⟨rfl, rfl⟩

/-- Witness for C6 at the sample store. -/
theorem bulk_delete_bad_body_rejected_witness :
    lookupEventByOwnerSecret exStore "os111" = some exEvent ∧
    bulk_delete_photos exCtx.cfg exStore "os111" .malformed =
      ({ status := 400, body := .err "Invalid request body" }, exStore) ∧
    bulk_delete_photos exCtx.cfg exStore "os111" (.ids []) =
      ({ status := 400, body := .err "No photo IDs provided" }, exStore) :=
  ⟨by decide,
   (bulk_delete_bad_body_rejected exCtx.cfg exStore "os111" exEvent (by decide)).1,
   (bulk_delete_bad_body_rejected exCtx.cfg exStore "os111" exEvent (by decide)).2⟩

/-- A list never equals itself with an extra head. -/
lemma no_self_cons {α : Type} {l : List α} : ¬ ∃ p : α, l = p :: l := by
  rintro ⟨p, hp⟩
  have := congrArg List.length hp
  simp at this

/-- C7: the upload handler creates a Photo record iff it returns a 200
response; every non-200 path leaves the store untouched. -/
theorem upload_creates_iff_success (ctx : UploadCtx) (s : Store)
    (g : String) (file? : Option UploadedFile) :
    ((upload_photo ctx s g file?).1.status = 200 ↔
      ∃ p, ((upload_photo ctx s g file?).2).photos = p :: s.photos) ∧
    ((upload_photo ctx s g file?).1.status ≠ 200 →
      (upload_photo ctx s g file?).2 = s) := by
  have hcases : ((upload_photo ctx s g file?).1.status = 200 ∧
      ∃ p, ((upload_photo ctx s g file?).2).photos = p :: s.photos) ∨
      ((upload_photo ctx s g file?).1.status ≠ 200 ∧
        (upload_photo ctx s g file?).2 = s) := by
    unfold upload_photo
    dsimp only
    split
    · exact .inr ⟨(by decide : (404 : Nat) ≠ 200), rfl⟩
    · split
      · exact .inr ⟨(by decide : (403 : Nat) ≠ 200), rfl⟩
      · split
        · exact .inr ⟨(by decide : (400 : Nat) ≠ 200), rfl⟩
        · split
          · exact .inr ⟨(by decide : (400 : Nat) ≠ 200), rfl⟩
          · split
            · exact .inr ⟨(by decide : (500 : Nat) ≠ 200), rfl⟩
            · split
              · exact .inr ⟨(by decide : (500 : Nat) ≠ 200), rfl⟩
              · exact .inl ⟨rfl, ⟨_, rfl⟩⟩
  rcases hcases with ⟨h200, p, hp⟩ | ⟨hne, hs⟩
  · exact ⟨⟨fun _ => ⟨p, hp⟩, fun _ => h200⟩, fun h => absurd h200 h⟩
  · refine ⟨⟨fun h => absurd h hne, fun hex => ?_⟩, fun _ => hs⟩
    rw [hs] at hex
    exact absurd hex no_self_cons

/-- The primary-key invariant of the Photo table: distinct rows carry
distinct ids. -/
def UniquePhotoIds (s : Store) : Prop :=
  s.photos.Pairwise (fun p q => p.id ≠ q.id)

/-- In a list of photos with pairwise-distinct ids, an id determines the
photo. -/
lemma photo_eq_of_id_eq :
    ∀ {l : List Photo}, l.Pairwise (fun a b => a.id ≠ b.id) →
      ∀ {p q : Photo}, p ∈ l → q ∈ l → p.id = q.id → p = q := by
  intro l
  induction l with
  | nil => intro _ p q hp; cases hp
  | cons x xs ih =>
    intro h p q hp hq hid
    rw [List.pairwise_cons] at h
    rcases List.mem_cons.mp hp with rfl | hp'
    · rcases List.mem_cons.mp hq with rfl | hq'
      · rfl
      · exact absurd hid (h.1 q hq')
    · rcases List.mem_cons.mp hq with rfl | hq'
      · exact absurd hid.symm (h.1 p hp')
      · exact ih h.2 hp' hq' hid

/-- Evaluation of `delete_photo` when both lookups succeed. -/
lemma delete_photo_eval {cfg : S3Config} {s : Store} {sec : String} {e : Event}
    {pid : Nat} {photo : Photo}
    (hl : lookupEventByOwnerSecret s sec = some e)
    (hfind : s.photos.find? (photoMatches e pid) = some photo) :
    delete_photo cfg s sec pid =
      ({ status := 200, body := .deleteOk },
       { s with photos := s.photos.filter (fun p => !(p.id == photo.id)) }) := by
  unfold delete_photo
  rw [hl]
  dsimp only
  rw [hfind]

/-- Evaluation of `delete_photo` when no photo of the event matches. -/
lemma delete_photo_eval_none {cfg : S3Config} {s : Store} {sec : String}
    {e : Event} {pid : Nat}
    (hl : lookupEventByOwnerSecret s sec = some e)
    (hfind : s.photos.find? (photoMatches e pid) = none) :
    delete_photo cfg s sec pid = (notFoundResponse, s) := by
  unfold delete_photo
  rw [hl]
  dsimp only
  rw [hfind]

/-- Evaluation of `bulk_delete_photos` on a well-formed non-empty id list. -/
lemma bulk_delete_eval {cfg : S3Config} {s : Store} {sec : String} {e : Event}
    {l : List Nat}
    (hl : lookupEventByOwnerSecret s sec = some e)
    (hne : l.isEmpty = false) :
    bulk_delete_photos cfg s sec (.ids l) =
      ({ status := 200
         body := .bulkOk (s.photos.filter
           (fun p => l.contains p.id && p.eventId == e.id)).length },
       { s with photos := s.photos.filter (fun p =>
           !((s.photos.filter (fun q => l.contains q.id && q.eventId == e.id)).map
             (fun v => v.id)).contains p.id) }) := by
  unfold bulk_delete_photos
  rw [hl]
  dsimp only
  rw [hne]
  rfl

/-- Evaluation of `bulk_delete_photos` on an empty id list. -/
lemma bulk_delete_eval_empty {cfg : S3Config} {s : Store} {sec : String}
    {e : Event}
    (hl : lookupEventByOwnerSecret s sec = some e) :
    bulk_delete_photos cfg s sec (.ids []) =
      ({ status := 400, body := .err "No photo IDs provided" }, s) := by
  unfold bulk_delete_photos
  rw [hl]
  rfl

/-- C4: a photo that does not belong to the authorized event is never
removed through that event's owner secret: single delete answers 404 and
leaves the store unchanged, and bulk delete keeps the photo stored and
counts only photos of the authorized event (so never this one). -/
theorem cross_event_delete_isolation (cfg : S3Config) (s : Store)
    (sec : String) (e : Event) (p : Photo) (l : List Nat)
    (huniq : UniquePhotoIds s)
    (hl : lookupEventByOwnerSecret s sec = some e)
    (hp : p ∈ s.photos) (hev : p.eventId ≠ e.id) :
    delete_photo cfg s sec p.id = (notFoundResponse, s) ∧
    p ∈ ((bulk_delete_photos cfg s sec (.ids l)).2).photos ∧
    (∀ n, (bulk_delete_photos cfg s sec (.ids l)).1.body = .bulkOk n →
      n = (s.photos.filter (fun q => l.contains q.id && q.eventId == e.id)).length ∧
      p ∉ s.photos.filter (fun q => l.contains q.id && q.eventId == e.id)) := by
  have hnone : s.photos.find? (photoMatches e p.id) = none := by
    rw [List.find?_eq_none]
    intro x hx hmatch
    simp only [photoMatches, Bool.and_eq_true, beq_iff_eq] at hmatch
    have hxp : x = p := photo_eq_of_id_eq huniq hx hp hmatch.1
    rw [hxp] at hmatch
    exact hev hmatch.2
  have hpid : ∀ v ∈ s.photos.filter
      (fun q => l.contains q.id && q.eventId == e.id), v.id ≠ p.id := by
    intro v hv hvp
    have hv' := List.mem_filter.mp hv
    have hveq : v = p := photo_eq_of_id_eq huniq hv'.1 hp hvp
    rw [hveq] at hv'
    simp only [Bool.and_eq_true, beq_iff_eq] at hv'
    exact hev hv'.2.2
  have hout : p ∉ s.photos.filter
      (fun q => l.contains q.id && q.eventId == e.id) := by
    intro hmem
    exact hpid p hmem rfl
  refine ⟨delete_photo_eval_none hl hnone, ?_, ?_⟩
  · cases l with
    | nil =>
      rw [bulk_delete_eval_empty hl]
      exact hp
    | cons a as =>
      rw [bulk_delete_eval (l := a :: as) hl rfl]
      refine List.mem_filter.mpr ⟨hp, ?_⟩
      simp only [Bool.not_eq_true']
      rw [Bool.eq_false_iff]
      intro hcontains
      have hpin := List.elem_iff.mp hcontains
      obtain ⟨v, hv, hvid⟩ := List.mem_map.mp hpin
      exact hpid v hv hvid
  · intro n hn
    cases l with
    | nil =>
      rw [bulk_delete_eval_empty hl] at hn
      cases hn
    | cons a as =>
      rw [bulk_delete_eval (l := a :: as) hl rfl] at hn
      have hn' : (s.photos.filter
          (fun q => (a :: as).contains q.id && q.eventId == e.id)).length = n := by
        injection hn
      rw [← hn']
      exact ⟨rfl, hout⟩

/-- Witness for C4: `exPhoto2` belongs to the second event; deleting it with
the first event's owner secret fails and skips it. -/
theorem cross_event_delete_isolation_witness :
    UniquePhotoIds exStore ∧
    lookupEventByOwnerSecret exStore "os111" = some exEvent ∧
    exPhoto2 ∈ exStore.photos ∧ exPhoto2.eventId ≠ exEvent.id ∧
    delete_photo exCtx.cfg exStore "os111" exPhoto2.id = (notFoundResponse, exStore) ∧
    exPhoto2 ∈ ((bulk_delete_photos exCtx.cfg exStore "os111" (.ids [12])).2).photos :=
  ⟨by unfold UniquePhotoIds; decide, by decide, by decide, by decide,
   (cross_event_delete_isolation exCtx.cfg exStore "os111" exEvent exPhoto2 [12]
      (by unfold UniquePhotoIds; decide) (by decide) (by decide) (by decide)).1,
   (cross_event_delete_isolation exCtx.cfg exStore "os111" exEvent exPhoto2 [12]
      (by unfold UniquePhotoIds; decide) (by decide) (by decide) (by decide)).2.1⟩

/-- C5: for a photo that does belong to the authorized event, the database
record is deleted and success reported for every S3 configuration — in
particular when the blob-store delete call fails (`delete_fails = true`);
bulk delete counts the photo among its deleted count. -/
theorem s3_failure_never_blocks_delete (cfg : S3Config) (s : Store)
    (sec : String) (e : Event) (photo : Photo) (l : List Nat)
    (hl : lookupEventByOwnerSecret s sec = some e)
    (hp : s.photos.find? (photoMatches e photo.id) = some photo)
    (hid : photo.id ∈ l) :
    ((delete_photo cfg s sec photo.id).1 = { status := 200, body := .deleteOk } ∧
      ∀ q ∈ ((delete_photo cfg s sec photo.id).2).photos, q.id ≠ photo.id) ∧
    ((bulk_delete_photos cfg s sec (.ids l)).1 =
      { status := 200
        body := .bulkOk (s.photos.filter
          (fun p => l.contains p.id && p.eventId == e.id)).length } ∧
      photo ∈ s.photos.filter (fun p => l.contains p.id && p.eventId == e.id) ∧
      ∀ q ∈ ((bulk_delete_photos cfg s sec (.ids l)).2).photos, q.id ≠ photo.id) := by
  have hmem : photo ∈ s.photos := List.mem_of_find?_eq_some hp
  have hmatch := List.find?_some hp
  simp only [photoMatches, Bool.and_eq_true, beq_iff_eq] at hmatch
  have hvic : photo ∈ s.photos.filter
      (fun p => l.contains p.id && p.eventId == e.id) := by
    refine List.mem_filter.mpr ⟨hmem, ?_⟩
    simp only [Bool.and_eq_true, beq_iff_eq]
    exact ⟨List.elem_iff.mpr hid, hmatch.2⟩
  constructor
  · constructor
    · rw [delete_photo_eval hl hp]
    · intro q hq
      rw [delete_photo_eval hl hp] at hq
      have hq' := List.mem_filter.mp hq
      simpa using hq'.2
  · have hne : l.isEmpty = false := by
      cases l with
      | nil => cases hid
      | cons a as => rfl
    refine ⟨?_, hvic, ?_⟩
    · rw [bulk_delete_eval hl hne]
    · intro q hq
      rw [bulk_delete_eval hl hne] at hq
      have hq' := List.mem_filter.mp hq
      have hq2 := hq'.2
      simp only [Bool.not_eq_true'] at hq2
      rw [Bool.eq_false_iff] at hq2
      intro hqid
      exact hq2 (List.elem_iff.mpr (List.mem_map.mpr ⟨photo, hvic, hqid.symm⟩))

/-- An S3 configuration whose delete call always raises `ClientError`. -/
def exCfgBroken : S3Config :=
  { bucket := "b", region := "r", put_fails := false, put_error := ""
    delete_fails := true, delete_error := "denied" }

/-- Witness for C5: deleting `exPhoto1` through its own event's secret with
a failing S3 delete still removes the record and reports success. -/
theorem s3_failure_never_blocks_delete_witness :
    lookupEventByOwnerSecret exStore "os111" = some exEvent ∧
    exStore.photos.find? (photoMatches exEvent exPhoto1.id) = some exPhoto1 ∧
    exPhoto1.id ∈ [11] ∧
    (delete_photo exCfgBroken exStore "os111" exPhoto1.id).1 =
      { status := 200, body := .deleteOk } ∧
    (bulk_delete_photos exCfgBroken exStore "os111" (.ids [11])).1 =
      { status := 200
        body := .bulkOk (exStore.photos.filter
          (fun p => [11].contains p.id && p.eventId == exEvent.id)).length } :=
  ⟨by decide, by decide, by decide,
   ((s3_failure_never_blocks_delete exCfgBroken exStore "os111" exEvent exPhoto1 [11]
      (by decide) (by decide) (by decide)).1).1,
   ((s3_failure_never_blocks_delete exCfgBroken exStore "os111" exEvent exPhoto1 [11]
      (by decide) (by decide) (by decide)).2).1⟩

/-- `eventSave` never changes the event id. -/
lemma eventSave_id (now : Nat) (fg fo : String) (e : Event) :
    (eventSave now fg fo e).id = e.id := by
  unfold eventSave
  dsimp only
  split_ifs <;> rfl

/-- `eventSave` never changes `uploads_enabled`. -/
lemma eventSave_uploads (now : Nat) (fg fo : String) (e : Event) :
    (eventSave now fg fo e).uploads_enabled = e.uploads_enabled := by
  unfold eventSave
  dsimp only
  split_ifs <;> rfl

/-- `eventSave` keeps a non-empty owner secret. -/
lemma eventSave_owner (now : Nat) (fg fo : String) (e : Event)
    (h : e.owner_secret ≠ "") :
    (eventSave now fg fo e).owner_secret = e.owner_secret := by
  unfold eventSave
  dsimp only
  split_ifs <;> simp_all

/-- `find?` over a map that replaces the found element: when a function
sends every element either to `e'` or to itself, sends `e` to `e'`, and
`e'` still satisfies the predicate, the found element becomes `e'`. -/
lemma find_map_update (P : Event → Bool) (f : Event → Event) (e e' : Event)
    (hf : ∀ ev, f ev = e' ∨ f ev = ev) (hfe : f e = e') (hP : P e' = true) :
    ∀ l : List Event, l.find? P = some e → (l.map f).find? P = some e' := by
  intro l
  induction l with
  | nil => intro h; cases h
  | cons x xs ih =>
    intro h
    rw [List.map_cons]
    by_cases hPfx : P (f x) = true
    · rw [List.find?_cons_of_pos _ hPfx]
      rcases hf x with hx | hx
      · rw [hx]
      · have hPx : P x = true := by rw [← hx]; exact hPfx
        rw [List.find?_cons_of_pos _ hPx] at h
        have hxe : x = e := by injection h
        subst hxe
        rw [hfe]
    · rw [List.find?_cons_of_neg _ (by simpa using hPfx)]
      by_cases hPx : P x = true
      · rw [List.find?_cons_of_pos _ hPx] at h
        have hxe : x = e := by injection h
        rw [hxe, hfe] at hPfx
        exact absurd hP hPfx
      · rw [List.find?_cons_of_neg _ (by simpa using hPx)] at h
        exact ih h

/-- The event found by owner secret carries that secret. -/
lemma lookup_owner_secret {s : Store} {sec : String} {e : Event}
    (hl : lookupEventByOwnerSecret s sec = some e) : e.owner_secret = sec := by
  have := List.find?_some hl
  simpa using this

/-- Evaluation of `toggle_uploads` on a resolving owner secret. -/
lemma toggle_uploads_eval {s : Store} {sec : String} {e : Event}
    (now : Nat) (fg fo : String)
    (hl : lookupEventByOwnerSecret s sec = some e) :
    toggle_uploads now fg fo s sec =
      ({ status := 200
         body := .toggleOk (eventSave now fg fo
           { e with uploads_enabled := !e.uploads_enabled }).uploads_enabled },
       updateEvent s (eventSave now fg fo
         { e with uploads_enabled := !e.uploads_enabled })) := by
  unfold toggle_uploads
  rw [hl]

/-- After toggling, the saved event is the one the same owner secret
resolves to in the updated store. -/
lemma lookup_after_toggle {s : Store} {sec : String} {e : Event}
    (now : Nat) (fg fo : String)
    (hl : lookupEventByOwnerSecret s sec = some e) (hsec : sec ≠ "") :
    lookupEventByOwnerSecret
      (updateEvent s (eventSave now fg fo
        { e with uploads_enabled := !e.uploads_enabled })) sec =
      some (eventSave now fg fo { e with uploads_enabled := !e.uploads_enabled }) := by
  have hosec : e.owner_secret = sec := lookup_owner_secret hl
  have hne : ({ e with uploads_enabled := !e.uploads_enabled } : Event).owner_secret ≠ "" := by
    simpa [hosec] using hsec
  unfold lookupEventByOwnerSecret at hl
  unfold lookupEventByOwnerSecret updateEvent
  refine find_map_update _ _ e _ (fun ev => ?_) ?_ ?_ s.events hl
  · dsimp only
    split_ifs with h
    · left; rfl
    · right; rfl
  · dsimp only
    rw [if_pos (by simp [eventSave_id])]
  · rw [eventSave_owner _ _ _ _ hne]
    simp [hosec]

/-- C10: toggling uploads twice returns `uploads_enabled` to its original
value; each application answers 200 with the new value in the body. -/
theorem toggle_uploads_involutive (now now' : Nat) (fg fo fg' fo' : String)
    (s : Store) (sec : String) (e : Event)
    (hl : lookupEventByOwnerSecret s sec = some e) (hsec : sec ≠ "") :
    (toggle_uploads now fg fo s sec).1 =
      { status := 200, body := .toggleOk (!e.uploads_enabled) } ∧
    (toggle_uploads now' fg' fo' (toggle_uploads now fg fo s sec).2 sec).1 =
      { status := 200, body := .toggleOk e.uploads_enabled } ∧
    (∃ e2, lookupEventByOwnerSecret
        (toggle_uploads now' fg' fo' (toggle_uploads now fg fo s sec).2 sec).2 sec
        = some e2 ∧
      e2.uploads_enabled = e.uploads_enabled) := by
  have hl1 := lookup_after_toggle now fg fo hl hsec
  refine ⟨?_, ?_, ?_⟩
  · rw [toggle_uploads_eval now fg fo hl]
    simp [eventSave_uploads]
  · rw [toggle_uploads_eval now fg fo hl]
    dsimp only
    rw [toggle_uploads_eval now' fg' fo' hl1]
    simp [eventSave_uploads]
  · rw [toggle_uploads_eval now fg fo hl]
    dsimp only
    rw [toggle_uploads_eval now' fg' fo' hl1]
    dsimp only
    refine ⟨_, lookup_after_toggle now' fg' fo' hl1 hsec, ?_⟩
    simp [eventSave_uploads]

/-- Witness for C10 at the sample store. -/
theorem toggle_uploads_involutive_witness :
    lookupEventByOwnerSecret exStore "os111" = some exEvent ∧
    ("os111" : String) ≠ "" ∧
    (toggle_uploads 90 "g1" "o1" exStore "os111").1 =
      { status := 200, body := .toggleOk (!exEvent.uploads_enabled) } ∧
    (toggle_uploads 91 "g2" "o2" (toggle_uploads 90 "g1" "o1" exStore "os111").2 "os111").1 =
      { status := 200, body := .toggleOk exEvent.uploads_enabled } :=
  ⟨by decide, by decide,
   (toggle_uploads_involutive 90 91 "g1" "o1" "g2" "o2" exStore "os111" exEvent
      (by decide) (by decide)).1,
   (toggle_uploads_involutive 90 91 "g1" "o1" "g2" "o2" exStore "os111" exEvent
      (by decide) (by decide)).2.1⟩

/-! ## C1: the handlers never read `is_active` or `expires_at` -/

/-- Field-wise agreement of two events on every field except `is_active`
and `expires_at`. -/
def eventAgreeB (a b : Event) : Bool :=
  a.id == b.id && a.guest_code == b.guest_code && a.owner_secret == b.owner_secret &&
  a.name == b.name && a.owner_email == b.owner_email &&
  a.created_at == b.created_at && a.uploads_enabled == b.uploads_enabled

/-- Pointwise agreement of two event tables. -/
def eventsAgree : List Event → List Event → Bool
  | [], [] => true
  | a :: as, b :: bs => eventAgreeB a b && eventsAgree as bs
  | _, _ => false

/-- Two stores that differ only in events' `is_active`/`expires_at` values. -/
def storesAgree (s1 s2 : Store) : Prop :=
  s1.photos = s2.photos ∧ eventsAgree s1.events s2.events = true

/-- Unpacking `eventAgreeB` into field equations. -/
lemma eventAgreeB_fields {a b : Event} (h : eventAgreeB a b = true) :
    a.id = b.id ∧ a.guest_code = b.guest_code ∧ a.owner_secret = b.owner_secret ∧
    a.name = b.name ∧ a.owner_email = b.owner_email ∧
    a.created_at = b.created_at ∧ a.uploads_enabled = b.uploads_enabled := by
  simp only [eventAgreeB, Bool.and_eq_true, beq_iff_eq] at h
  tauto

/-- A predicate blind to `is_active`/`expires_at` finds agreeing events (or
fails on both sides) in agreeing event tables. -/
lemma find_agree {P : Event → Bool}
    (hP : ∀ a b, eventAgreeB a b = true → P a = P b) :
    ∀ l1 l2 : List Event, eventsAgree l1 l2 = true →
      (l1.find? P = none ∧ l2.find? P = none) ∨
      ∃ a b, l1.find? P = some a ∧ l2.find? P = some b ∧ eventAgreeB a b = true := by
  intro l1
  induction l1 with
  | nil =>
    intro l2 h
    cases l2 with
    | nil => exact .inl ⟨rfl, rfl⟩
    | cons b bs => simp [eventsAgree] at h
  | cons a as ih =>
    intro l2 h
    cases l2 with
    | nil => simp [eventsAgree] at h
    | cons b bs =>
      simp only [eventsAgree, Bool.and_eq_true] at h
      obtain ⟨hab, ht⟩ := h
      by_cases hPa : P a = true
      · refine .inr ⟨a, b, ?_, ?_, hab⟩
        · rw [List.find?_cons_of_pos _ hPa]
        · rw [List.find?_cons_of_pos _ (by rw [← hP a b hab]; exact hPa)]
      · have hPb : ¬ P b = true := fun hb => hPa (by rw [hP a b hab]; exact hb)
        rcases ih bs ht with ⟨h1, h2⟩ | ⟨x, y, hx, hy, hxy⟩
        · refine .inl ⟨?_, ?_⟩
          · rw [List.find?_cons_of_neg _ hPa, h1]
          · rw [List.find?_cons_of_neg _ hPb, h2]
        · refine .inr ⟨x, y, ?_, ?_, hxy⟩
          · rw [List.find?_cons_of_neg _ hPa, hx]
          · rw [List.find?_cons_of_neg _ hPb, hy]

/-- Photo listings coincide over agreeing stores and events. -/
lemma eventPhotos_agree {s1 s2 : Store} (hph : s1.photos = s2.photos)
    {a b : Event} (hid : a.id = b.id) :
    eventPhotos s1 a = eventPhotos s2 b := by
  unfold eventPhotos
  rw [hph, hid]

/-- The guest gallery neither reads `is_active`/`expires_at` nor writes. -/
lemma guest_gallery_agree {s1 s2 : Store} (h : storesAgree s1 s2) (g : String) :
    (guest_gallery s1 g).1 = (guest_gallery s2 g).1 ∧
    storesAgree (guest_gallery s1 g).2 (guest_gallery s2 g).2 := by
  obtain ⟨hph, hev⟩ := h
  unfold guest_gallery lookupEventByGuestCode
  rcases find_agree (P := fun e => e.guest_code == g)
      (fun a b hab => by simp only [(eventAgreeB_fields hab).2.1]) s1.events s2.events hev with
    ⟨h1, h2⟩ | ⟨a, b, ha, hb, hab⟩
  · rw [h1, h2]
    exact ⟨rfl, hph, hev⟩
  · rw [ha, hb]
    dsimp only
    refine ⟨?_, hph, hev⟩
    rw [(eventAgreeB_fields hab).2.2.2.1,
      eventPhotos_agree hph (eventAgreeB_fields hab).1]

/-- The owner dashboard neither reads `is_active`/`expires_at` nor writes. -/
lemma owner_dashboard_agree {s1 s2 : Store} (h : storesAgree s1 s2) (sec : String) :
    (owner_dashboard s1 sec).1 = (owner_dashboard s2 sec).1 ∧
    storesAgree (owner_dashboard s1 sec).2 (owner_dashboard s2 sec).2 := by
  obtain ⟨hph, hev⟩ := h
  unfold owner_dashboard lookupEventByOwnerSecret
  rcases find_agree (P := fun e => e.owner_secret == sec)
      (fun a b hab => by simp only [(eventAgreeB_fields hab).2.2.1]) s1.events s2.events hev with
    ⟨h1, h2⟩ | ⟨a, b, ha, hb, hab⟩
  · rw [h1, h2]
    exact ⟨rfl, hph, hev⟩
  · rw [ha, hb]
    dsimp only
    refine ⟨?_, hph, hev⟩
    rw [(eventAgreeB_fields hab).2.2.2.1,
      eventPhotos_agree hph (eventAgreeB_fields hab).1]

/-- The zip download neither reads `is_active`/`expires_at` nor writes. -/
lemma download_zip_agree {s1 s2 : Store} (h : storesAgree s1 s2)
    (fetch : String → Option Bytes) (sec : String) (body : BulkBody) :
    (download_photos_zip fetch s1 sec body).1 = (download_photos_zip fetch s2 sec body).1 ∧
    storesAgree (download_photos_zip fetch s1 sec body).2
      (download_photos_zip fetch s2 sec body).2 := by
  obtain ⟨hph, hev⟩ := h
  unfold download_photos_zip lookupEventByOwnerSecret
  rcases find_agree (P := fun e => e.owner_secret == sec)
      (fun a b hab => by simp only [(eventAgreeB_fields hab).2.2.1]) s1.events s2.events hev with
    ⟨h1, h2⟩ | ⟨a, b, ha, hb, hab⟩
  · rw [h1, h2]
    exact ⟨rfl, hph, hev⟩
  · rw [ha, hb]
    dsimp only
    refine ⟨?_, hph, hev⟩
    rw [(eventAgreeB_fields hab).2.2.2.1,
      eventPhotos_agree hph (eventAgreeB_fields hab).1, hph,
      (eventAgreeB_fields hab).1]

/-- `eventSave` never changes the name. -/
lemma eventSave_name (now : Nat) (fg fo : String) (e : Event) :
    (eventSave now fg fo e).name = e.name := by
  unfold eventSave
  dsimp only
  split_ifs <;> rfl

/-- `eventSave` never changes the owner email. -/
lemma eventSave_email (now : Nat) (fg fo : String) (e : Event) :
    (eventSave now fg fo e).owner_email = e.owner_email := by
  unfold eventSave
  dsimp only
  split_ifs <;> rfl

/-- `eventSave` never changes the creation time. -/
lemma eventSave_created (now : Nat) (fg fo : String) (e : Event) :
    (eventSave now fg fo e).created_at = e.created_at := by
  unfold eventSave
  dsimp only
  split_ifs <;> rfl

/-- The guest code after `eventSave` as a function of the old one. -/
lemma eventSave_guest_eq (now : Nat) (fg fo : String) (e : Event) :
    (eventSave now fg fo e).guest_code =
      if e.guest_code = "" then fg else e.guest_code := by
  unfold eventSave
  dsimp only
  split_ifs <;> simp_all

/-- The owner secret after `eventSave` as a function of the old one. -/
lemma eventSave_owner_eq (now : Nat) (fg fo : String) (e : Event) :
    (eventSave now fg fo e).owner_secret =
      if e.owner_secret = "" then fo else e.owner_secret := by
  unfold eventSave
  dsimp only
  split_ifs <;> simp_all

/-- Flipping `uploads_enabled` on both sides preserves agreement. -/
lemma flip_agree {a b : Event} (hab : eventAgreeB a b = true) :
    eventAgreeB { a with uploads_enabled := !a.uploads_enabled }
      { b with uploads_enabled := !b.uploads_enabled } = true := by
  obtain ⟨h1, h2, h3, h4, h5, h6, h7⟩ := eventAgreeB_fields hab
  simp [eventAgreeB, h1, h2, h3, h4, h5, h6, h7]

/-- Saving two agreeing events with the same fresh values preserves
agreement (only `expires_at`, outside the agreed fields, may diverge). -/
lemma eventSave_agree (now : Nat) (fg fo : String) {a b : Event}
    (hab : eventAgreeB a b = true) :
    eventAgreeB (eventSave now fg fo a) (eventSave now fg fo b) = true := by
  obtain ⟨h1, h2, h3, h4, h5, h6, h7⟩ := eventAgreeB_fields hab
  simp [eventAgreeB, eventSave_id, eventSave_guest_eq, eventSave_owner_eq,
    eventSave_name, eventSave_email, eventSave_created, eventSave_uploads,
    h1, h2, h3, h4, h5, h6, h7]

/-- Replacing the row with a given id by agreeing events preserves table
agreement. -/
lemma eventsAgree_map_update {E1 E2 : Event} (hE : eventAgreeB E1 E2 = true) :
    ∀ l1 l2 : List Event, eventsAgree l1 l2 = true →
      eventsAgree (l1.map (fun ev => if ev.id == E1.id then E1 else ev))
        (l2.map (fun ev => if ev.id == E2.id then E2 else ev)) = true := by
  have hid : E1.id = E2.id := (eventAgreeB_fields hE).1
  intro l1
  induction l1 with
  | nil =>
    intro l2 h
    cases l2 with
    | nil => exact h
    | cons b bs => simp [eventsAgree] at h
  | cons a as ih =>
    intro l2 h
    cases l2 with
    | nil => simp [eventsAgree] at h
    | cons b bs =>
      simp only [eventsAgree, Bool.and_eq_true] at h
      obtain ⟨hab, ht⟩ := h
      simp only [List.map_cons, eventsAgree, Bool.and_eq_true]
      refine ⟨?_, ih bs ht⟩
      have hidab : a.id = b.id := (eventAgreeB_fields hab).1
      by_cases hc : (a.id == E1.id) = true
      · rw [if_pos hc, if_pos (by rw [← hidab, ← hid]; exact hc)]
        exact hE
      · rw [if_neg hc, if_neg (by rw [← hidab, ← hid]; exact hc)]
        exact hab

/-- The toggle handler neither reads `is_active`/`expires_at` nor lets them
influence its state change. -/
lemma toggle_uploads_agree {s1 s2 : Store} (h : storesAgree s1 s2)
    (now : Nat) (fg fo : String) (sec : String) :
    (toggle_uploads now fg fo s1 sec).1 = (toggle_uploads now fg fo s2 sec).1 ∧
    storesAgree (toggle_uploads now fg fo s1 sec).2
      (toggle_uploads now fg fo s2 sec).2 := by
  obtain ⟨hph, hev⟩ := h
  unfold toggle_uploads lookupEventByOwnerSecret
  rcases find_agree (P := fun e => e.owner_secret == sec)
      (fun a b hab => by simp only [(eventAgreeB_fields hab).2.2.1])
      s1.events s2.events hev with
    ⟨h1, h2⟩ | ⟨a, b, ha, hb, hab⟩
  · rw [h1, h2]
    exact ⟨rfl, hph, hev⟩
  · rw [ha, hb]
    dsimp only
    have hsave := eventSave_agree now fg fo (flip_agree hab)
    refine ⟨?_, hph, ?_⟩
    · rw [(eventAgreeB_fields hsave).2.2.2.2.2.2]
    · unfold updateEvent
      dsimp only
      exact eventsAgree_map_update hsave s1.events s2.events hev

/-- The single-delete handler neither reads `is_active`/`expires_at` nor
lets them influence its state change. -/
lemma delete_photo_agree {s1 s2 : Store} (h : storesAgree s1 s2)
    (cfg : S3Config) (sec : String) (pid : Nat) :
    (delete_photo cfg s1 sec pid).1 = (delete_photo cfg s2 sec pid).1 ∧
    storesAgree (delete_photo cfg s1 sec pid).2 (delete_photo cfg s2 sec pid).2 := by
  obtain ⟨hph, hev⟩ := h
  unfold delete_photo lookupEventByOwnerSecret
  rcases find_agree (P := fun e => e.owner_secret == sec)
      (fun a b hab => by simp only [(eventAgreeB_fields hab).2.2.1])
      s1.events s2.events hev with
    ⟨h1, h2⟩ | ⟨a, b, ha, hb, hab⟩
  · rw [h1, h2]
    exact ⟨rfl, hph, hev⟩
  · rw [ha, hb]
    dsimp only
    have hpm : photoMatches a pid = photoMatches b pid := by
      funext p
      unfold photoMatches
      rw [(eventAgreeB_fields hab).1]
    rw [hpm, hph]
    cases s2.photos.find? (photoMatches b pid) with
    | none => exact ⟨rfl, hph, hev⟩
    | some photo => exact ⟨rfl, rfl, hev⟩

/-- The bulk-delete handler neither reads `is_active`/`expires_at` nor lets
them influence its state change. -/
lemma bulk_delete_agree {s1 s2 : Store} (h : storesAgree s1 s2)
    (cfg : S3Config) (sec : String) (body : BulkBody) :
    (bulk_delete_photos cfg s1 sec body).1 = (bulk_delete_photos cfg s2 sec body).1 ∧
    storesAgree (bulk_delete_photos cfg s1 sec body).2
      (bulk_delete_photos cfg s2 sec body).2 := by
  obtain ⟨hph, hev⟩ := h
  unfold bulk_delete_photos lookupEventByOwnerSecret
  rcases find_agree (P := fun e => e.owner_secret == sec)
      (fun a b hab => by simp only [(eventAgreeB_fields hab).2.2.1])
      s1.events s2.events hev with
    ⟨h1, h2⟩ | ⟨a, b, ha, hb, hab⟩
  · rw [h1, h2]
    exact ⟨rfl, hph, hev⟩
  · rw [ha, hb]
    dsimp only
    cases body with
    | malformed => exact ⟨rfl, hph, hev⟩
    | ids l =>
      rw [(eventAgreeB_fields hab).1, hph]
      dsimp only
      split_ifs with hl
      · exact ⟨rfl, hph, hev⟩
      · exact ⟨rfl, rfl, hev⟩

/-- The upload handler neither reads `is_active`/`expires_at` nor lets them
influence its state change. -/
lemma upload_photo_agree {s1 s2 : Store} (h : storesAgree s1 s2)
    (ctx : UploadCtx) (g : String) (file? : Option UploadedFile) :
    (upload_photo ctx s1 g file?).1 = (upload_photo ctx s2 g file?).1 ∧
    storesAgree (upload_photo ctx s1 g file?).2 (upload_photo ctx s2 g file?).2 := by
  obtain ⟨hph, hev⟩ := h
  unfold upload_photo lookupEventByGuestCode
  rcases find_agree (P := fun e => e.guest_code == g)
      (fun a b hab => by simp only [(eventAgreeB_fields hab).2.1])
      s1.events s2.events hev with
    ⟨h1, h2⟩ | ⟨a, b, ha, hb, hab⟩
  · rw [h1, h2]
    exact ⟨rfl, hph, hev⟩
  · rw [ha, hb]
    dsimp only
    rw [(eventAgreeB_fields hab).2.2.2.2.2.2, (eventAgreeB_fields hab).1]
    split_ifs with hd
    · exact ⟨rfl, hph, hev⟩
    · cases file? with
      | none => exact ⟨rfl, hph, hev⟩
      | some pf =>
        dsimp only
        split_ifs with hv
        · exact ⟨rfl, hph, hev⟩
        · cases upload_photo_to_s3 ctx.cfg ctx.uuidHex
            (validate_image_file ctx.settings pf).2 b.id with
          | error msg => exact ⟨rfl, hph, hev⟩
          | ok s3d =>
            dsimp only
            split_ifs with hu
            · exact ⟨rfl, hph, hev⟩
            · exact ⟨rfl, by rw [hph], hev⟩

/-- The conclusion of C1 at two stores and arbitrary request inputs: each
of the seven handlers produces equal responses and post-states that again
differ at most in events' `is_active`/`expires_at`. -/
def ActivityBlindAt (s1 s2 : Store) (g sec : String) (ctx : UploadCtx)
    (file? : Option UploadedFile) (pid : Nat) (cfg : S3Config)
    (body zbody : BulkBody) (now : Nat) (fg fo : String)
    (fetch : String → Option Bytes) : Prop :=
  ((guest_gallery s1 g).1 = (guest_gallery s2 g).1 ∧
    storesAgree (guest_gallery s1 g).2 (guest_gallery s2 g).2) ∧
  ((owner_dashboard s1 sec).1 = (owner_dashboard s2 sec).1 ∧
    storesAgree (owner_dashboard s1 sec).2 (owner_dashboard s2 sec).2) ∧
  ((upload_photo ctx s1 g file?).1 = (upload_photo ctx s2 g file?).1 ∧
    storesAgree (upload_photo ctx s1 g file?).2 (upload_photo ctx s2 g file?).2) ∧
  ((delete_photo cfg s1 sec pid).1 = (delete_photo cfg s2 sec pid).1 ∧
    storesAgree (delete_photo cfg s1 sec pid).2 (delete_photo cfg s2 sec pid).2) ∧
  ((bulk_delete_photos cfg s1 sec body).1 = (bulk_delete_photos cfg s2 sec body).1 ∧
    storesAgree (bulk_delete_photos cfg s1 sec body).2
      (bulk_delete_photos cfg s2 sec body).2) ∧
  ((toggle_uploads now fg fo s1 sec).1 = (toggle_uploads now fg fo s2 sec).1 ∧
    storesAgree (toggle_uploads now fg fo s1 sec).2
      (toggle_uploads now fg fo s2 sec).2) ∧
  ((download_photos_zip fetch s1 sec zbody).1 =
      (download_photos_zip fetch s2 sec zbody).1 ∧
    storesAgree (download_photos_zip fetch s1 sec zbody).2
      (download_photos_zip fetch s2 sec zbody).2)

/-- C1: no request handler checks `is_active` or `expires_at`: on any two
stores that differ only in those fields of events, every endpoint produces
the same response and the same state change. -/
theorem handlers_ignore_activity_flags (s1 s2 : Store) (g sec : String)
    (ctx : UploadCtx) (file? : Option UploadedFile) (pid : Nat) (cfg : S3Config)
    (body zbody : BulkBody) (now : Nat) (fg fo : String)
    (fetch : String → Option Bytes) (h : storesAgree s1 s2) :
    ActivityBlindAt s1 s2 g sec ctx file? pid cfg body zbody now fg fo fetch :=
  ⟨guest_gallery_agree h g, owner_dashboard_agree h sec,
   upload_photo_agree h ctx g file?, delete_photo_agree h cfg sec pid,
   bulk_delete_agree h cfg sec body, toggle_uploads_agree h now fg fo sec,
   download_zip_agree h fetch sec zbody⟩

/-- `exStore` with the first event deactivated and its expiry cleared. -/
def exStoreFlipped : Store :=
  { events := [{ exEvent with is_active := false, expires_at := none }, exEventOff]
    photos := [exPhoto1, exPhoto2] }

/-- Witness for C1 at the sample stores, which differ exactly in the first
event's `is_active` and `expires_at`. -/
theorem handlers_ignore_activity_flags_witness :
    storesAgree exStore exStoreFlipped ∧
    ActivityBlindAt exStore exStoreFlipped "gc111" "os111" exCtx (some exFileJpeg)
      11 exCtx.cfg (.ids [11]) (.ids []) 90 "ng" "nos" (fun _ => none) :=
  ⟨⟨rfl, by decide⟩,
   handlers_ignore_activity_flags exStore exStoreFlipped "gc111" "os111" exCtx
     (some exFileJpeg) 11 exCtx.cfg (.ids [11]) (.ids []) 90 "ng" "nos"
     (fun _ => none) ⟨rfl, by decide⟩⟩

end Photobooth
